import Mathlib

/-
Verification of the AboutModal dialog specification.

The repository under verification ships the Jest test suite of the
AboutModal component and an example caller; the component implementation
itself is not part of the provided sources.  The definitions below are
therefore a shallow embedding modelled from the specification
(ModalController, CloseVetoProtocol, ContentComposer, DialogChrome), and
the theorems settle the frozen claims against that model.
-/

namespace AboutModal

/-- Modelled from the spec: the AboutModal component implementation is
absent from the provided sources (only its test file and an example
caller are present).  A JavaScript value as returned by the onClose
callback; the protocol only defines semantics for the boolean returns,
and section 7 of the spec directs that any non-boolean return is treated
as equivalent to true. -/
inductive JSValue where
  | bool : Bool → JSValue
  | undefined : JSValue
  | nullV : JSValue
  | str : String → JSValue
  | num : Int → JSValue
deriving DecidableEq, Repr

/-- Modelled from the spec: a link descriptor supplied in the links
sequence; each entry requires a navigable target (href) and a label. -/
structure LinkDescriptor where
  label : String
  href : String
deriving DecidableEq, Repr

/-- Modelled from the spec: one additionalInfo group, a label together
with arbitrary content, repeatable. -/
structure InfoGroup where
  label : String
  content : String
deriving DecidableEq, Repr

/-- Modelled from the spec: the inputs of the AboutModal component
(section 6 of the spec).  The external open signal, the optional veto
callback, the mandatory close-icon accessible label, and the independent
optional content sections.  The callback is embedded as a pure function
of the call index so that a callback that answers differently on
successive close attempts is representable. -/
structure AboutModalProps where
  openProp : Bool
  onClose : Option (Nat → JSValue)
  closeIconDescription : String
  title : Option String
  logo : Option String
  content : Option String
  generalText : Option String
  copyrightText : Option String
  versionNumber : Option String
  links : List LinkDescriptor
  additionalInfo : List InfoGroup

/-- Modelled from the spec: one self-contained, independently optional
block of content within the dialog, identified by kind (section 3 of the
spec, ContentSections). -/
inductive Section where
  | title : String → Section
  | logo : String → Section
  | body : String → Section
  | generalText : String → Section
  | link : LinkDescriptor → Section
  | copyright : String → Section
  | version : String → Section
  | additionalInfoGroup : String → String → Section
deriving DecidableEq, Repr

/-- Modelled from the spec: a mounted dialog instance, owning the props
it was rendered with, the derived visibility state, and the number of
times the registered onClose callback has been invoked. -/
structure DialogInstance where
  props : AboutModalProps
  visible : Bool
  onCloseCalls : Nat

/-- Modelled from the spec: mounting creates the dialog state with
visible equal to the open input and the callback never yet invoked. -/
def mount (p : AboutModalProps) : DialogInstance :=
  { props := p, visible := p.openProp, onCloseCalls := 0 }

/-- Modelled from the spec: a close request is vetoed exactly when the
callback returns the boolean false; any non-boolean return is treated as
equivalent to true (section 7 of the spec). -/
def jsIsFalse : JSValue → Bool
  | JSValue.bool false => true
  | _ => false

/-- Whether a JavaScript value is a strict boolean. -/
def jsIsBool : JSValue → Bool
  | JSValue.bool _ => true
  | _ => false

/-- Modelled from the spec: the CloseVetoProtocol (section 4.2).  A close
attempt with no registered callback always succeeds.  With a registered
callback, the callback is invoked exactly once; if it returns the boolean
false the attempt is vetoed and no visibility transition occurs,
otherwise the dialog becomes hidden. -/
def attemptClose (d : DialogInstance) : DialogInstance :=
  match d.props.onClose with
  | none => { d with visible := false }
  | some f =>
      let d' := { d with onCloseCalls := d.onCloseCalls + 1 }
      if jsIsFalse (f d.onCloseCalls) then d' else { d' with visible := false }

/-- Modelled from the spec: the discrete events a mounted dialog
processes, each handled to completion within one UI turn (section 5):
an update of the external open input, or a user click on the close
control. -/
inductive Event where
  | setOpen : Bool → Event
  | clickClose : Event
deriving DecidableEq, Repr

/-- Modelled from the spec: the ModalController step function.  Updating
the open input drives the visibility state directly; a click on the
close control routes through the CloseVetoProtocol. -/
def step (d : DialogInstance) : Event → DialogInstance
  | Event.setOpen b => { d with props := { d.props with openProp := b }, visible := b }
  | Event.clickClose => attemptClose d

/-- Folding a sequence of events over a dialog instance. -/
def stepMany (d : DialogInstance) : List Event → DialogInstance
  | [] => d
  | e :: es => stepMany (step d e) es

/-- Modelled from the spec: the ContentComposer (section 4.3), a pure
function from the supplied inputs to the ordered list of present
sections; each section is present iff its input was supplied, the order
among present sections is fixed by design, and the links and
additionalInfo sequences keep their input order. -/
def composeSections (p : AboutModalProps) : List Section :=
  (p.title.map Section.title).toList
    ++ (p.logo.map Section.logo).toList
    ++ (p.content.map Section.body).toList
    ++ (p.generalText.map Section.generalText).toList
    ++ p.links.map Section.link
    ++ (p.copyrightText.map Section.copyright).toList
    ++ (p.versionNumber.map Section.version).toList
    ++ p.additionalInfo.map (fun g => Section.additionalInfoGroup g.label g.content)

/-- Modelled from the spec: the root node rendered by DialogChrome
(section 4.4): the accessibility role, the class list, the close control
with its accessible label, and the composed sections as children. -/
structure RootNode where
  role : String
  classes : List String
  closeButtonLabel : String
  sections : List Section
deriving DecidableEq, Repr

/-- The stable identifying class of the root node. -/
def blockClass : String := "c4p--about-modal"

/-- The presentation-state (visibility) class. -/
def visibleClass : String := "is-visible"

/-- Modelled from the spec: DialogChrome renders a single root node with
the dialog/presentation role, the stable identifying class, the
visibility-state class applied conditionally on the derived state, the
close control labeled via closeIconDescription, and the composed
sections as children. -/
def render (d : DialogInstance) : RootNode :=
  { role := "presentation"
    classes := [blockClass] ++ (if d.visible then [visibleClass] else [])
    closeButtonLabel := d.props.closeIconDescription
    sections := composeSections d.props }

/-- Whether the root node carries a given class. -/
def hasClass (n : RootNode) (c : String) : Bool :=
  n.classes.contains c

/-- Assistive-technology query for a button with the given accessible
name; in the dialog the close control is the only button exposed by the
chrome itself. -/
def queryButtonByName (n : RootNode) (name : String) : Bool :=
  n.closeButtonLabel == name

/-- Projection of a section to a rendered link, if it is one. -/
def sectionLink : Section → Option LinkDescriptor
  | Section.link l => some l
  | _ => none

/-- Projection of a section to a rendered general-text block, if it is
one. -/
def sectionGeneralText : Section → Option String
  | Section.generalText t => some t
  | _ => none

/-- The rendered links of a root node, in rendered order. -/
def renderedLinks (n : RootNode) : List LinkDescriptor :=
  n.sections.filterMap sectionLink

/-- The rendered general-text blocks of a root node. -/
def renderedGeneralText (n : RootNode) : List String :=
  n.sections.filterMap sectionGeneralText

/-- A concrete set of props mirroring the test harness defaults: content,
logo, title and the required close-icon label, with open true. -/
def exampleProps : AboutModalProps :=
  { openProp := true
    onClose := none
    closeIconDescription := "Close"
    title := some "Watson Ops"
    logo := some "example-logo.svg"
    content := some "This is example content"
    generalText := none
    copyrightText := none
    versionNumber := none
    links := []
    additionalInfo := [] }

/-- A callback that always vetoes. -/
def constFalse : Nat → JSValue := fun _ => JSValue.bool false

/-- A callback that always accepts. -/
def constTrue : Nat → JSValue := fun _ => JSValue.bool true

/-- A callback that returns undefined, as the example caller does. -/
def constUndefined : Nat → JSValue := fun _ => JSValue.undefined

/-- Props with a vetoing callback registered. -/
def vetoProps : AboutModalProps :=
  { exampleProps with onClose := some constFalse }

/-- Props with an accepting callback registered. -/
def acceptProps : AboutModalProps :=
  { exampleProps with onClose := some constTrue }

/-- Props with a callback returning undefined registered. -/
def undefProps : AboutModalProps :=
  { exampleProps with onClose := some constUndefined }

/-- C1: with a registered onClose callback that returns false, one click
on the close control invokes onClose exactly once and the dialog remains
visible with no visibility transition; a second click increments the
call count by one, again without changing visibility. -/
theorem close_veto_keeps_visible (p : AboutModalProps) (f : Nat → JSValue)
    (hreg : p.onClose = some f) (hf : ∀ n, f n = JSValue.bool false) :
    (attemptClose (mount p)).onCloseCalls = 1 ∧
    (attemptClose (mount p)).visible = (mount p).visible ∧
    (attemptClose (attemptClose (mount p))).onCloseCalls = 2 ∧
    (attemptClose (attemptClose (mount p))).visible = (mount p).visible := by
  simp [mount, attemptClose, hreg, hf, jsIsFalse]

/-- Witness for C1 at the concrete veto props of the test suite. -/
theorem close_veto_keeps_visible_witness :
    vetoProps.onClose = some constFalse ∧
    ((attemptClose (mount vetoProps)).onCloseCalls = 1 ∧
      (attemptClose (mount vetoProps)).visible = (mount vetoProps).visible ∧
      (attemptClose (attemptClose (mount vetoProps))).onCloseCalls = 2 ∧
      (attemptClose (attemptClose (mount vetoProps))).visible = (mount vetoProps).visible) :=
  ⟨rfl, close_veto_keeps_visible vetoProps constFalse rfl (fun _ => rfl)⟩

/-- C2: with a registered onClose callback that returns true, a single
click on the close control invokes onClose exactly once (the call count
rises by exactly one) and transitions the dialog to hidden. -/
theorem close_accept_hides (d : DialogInstance) (f : Nat → JSValue)
    (hreg : d.props.onClose = some f) (hf : ∀ n, f n = JSValue.bool true) :
    (attemptClose d).onCloseCalls = d.onCloseCalls + 1 ∧
    (attemptClose d).visible = false := by
  simp [attemptClose, hreg, hf, jsIsFalse]

/-- Witness for C2 at the concrete accepting props of the test suite. -/
theorem close_accept_hides_witness :
    (mount acceptProps).props.onClose = some constTrue ∧
    ((attemptClose (mount acceptProps)).onCloseCalls = (mount acceptProps).onCloseCalls + 1 ∧
      (attemptClose (mount acceptProps)).visible = false) :=
  ⟨rfl, close_accept_hides (mount acceptProps) constTrue rfl (fun _ => rfl)⟩

/-- C3: with no onClose callback registered, every close request
succeeds: from any state of the dialog, clicking the close control
transitions the dialog to hidden. -/
theorem close_no_callback_hides (d : DialogInstance)
    (h : d.props.onClose = none) :
    (attemptClose d).visible = false := by
  simp [attemptClose, h]

/-- Witness for C3 at the concrete default props of the test suite. -/
theorem close_no_callback_hides_witness :
    (mount exampleProps).props.onClose = none ∧
    (attemptClose (mount exampleProps)).visible = false :=
  ⟨rfl, close_no_callback_hides (mount exampleProps) rfl⟩

/-- C4: the root node carries the visibility-state class iff the open
input is true, both on mount and after any update of the open input, and
the derived visibility state never desynchronizes from the prop under
open updates. -/
theorem visibility_class_iff_open (p : AboutModalProps) (b : Bool) (d : DialogInstance) :
    hasClass (render (mount p)) visibleClass = p.openProp ∧
    hasClass (render (step d (Event.setOpen b))) visibleClass = b ∧
    (step d (Event.setOpen b)).visible = (step d (Event.setOpen b)).props.openProp := by
  refine ⟨?_, ?_, rfl⟩
  · cases h : p.openProp <;> simp [hasClass, render, mount, h, blockClass, visibleClass]
  · cases b <;> simp [hasClass, render, step, blockClass, visibleClass]

/-- C5: in every state of the dialog the root node carries the stable
identifying class and the presentation accessibility role; between any
two states sharing the same props, only the presentation-state class may
differ in the rendered root. -/
theorem stable_class_and_role (d : DialogInstance) (p : AboutModalProps)
    (v1 v2 : Bool) (c1 c2 : Nat) :
    hasClass (render d) blockClass = true ∧
    (render d).role = "presentation" ∧
    (render (DialogInstance.mk p v1 c1)).role = (render (DialogInstance.mk p v2 c2)).role ∧
    (render (DialogInstance.mk p v1 c1)).closeButtonLabel
      = (render (DialogInstance.mk p v2 c2)).closeButtonLabel ∧
    (render (DialogInstance.mk p v1 c1)).sections
      = (render (DialogInstance.mk p v2 c2)).sections ∧
    (render (DialogInstance.mk p v1 c1)).classes.filter (fun c => c != visibleClass)
      = (render (DialogInstance.mk p v2 c2)).classes.filter (fun c => c != visibleClass) := by
  refine ⟨?_, rfl, rfl, rfl, rfl, ?_⟩
  · cases h : d.visible <;> simp [hasClass, render, h, blockClass, visibleClass]
  · cases v1 <;> cases v2 <;> simp [render, blockClass, visibleClass]

/-- A list mapped through a constructor that the projection rejects
contributes nothing to a filterMap. -/
theorem filterMap_map_none {α β : Type} (f : Section → Option β) (g : α → Section)
    (hg : ∀ a, f (g a) = none) (l : List α) :
    (l.map g).filterMap f = [] := by
  induction l with
  | nil => rfl
  | cons a t ih => simp [hg, ih]

/-- A list mapped through a constructor that the projection inverts is
recovered whole by a filterMap. -/
theorem filterMap_map_id {β : Type} (f : Section → Option β) (g : β → Section)
    (hg : ∀ b, f (g b) = some b) (l : List β) :
    (l.map g).filterMap f = l := by
  induction l with
  | nil => rfl
  | cons a t ih => simp [hg, ih]

/-- An optional section built from a constructor that the projection
rejects contributes nothing to a filterMap. -/
theorem filterMap_none_of_map {α : Type} (f : Section → Option α) (g : String → Section)
    (hg : ∀ t, f (g t) = none) (o : Option String) :
    ((o.map g).toList).filterMap f = [] := by
  cases o <;> simp [hg]

/-- An optional section built from a constructor that the projection
inverts is recovered by a filterMap. -/
theorem filterMap_opt_id {β : Type} (f : Section → Option β) (g : β → Section)
    (hg : ∀ b, f (g b) = some b) (o : Option β) :
    ((o.map g).toList).filterMap f = o.toList := by
  cases o <;> simp [hg]

/-- C6: the rendered links appear in exactly the input order with no
re-sorting, and each rendered link keeps its input href and label. -/
theorem links_render_in_input_order (p : AboutModalProps) :
    renderedLinks (render (mount p)) = p.links := by
  have h1 := filterMap_none_of_map sectionLink Section.title (fun t => rfl)
  have h2 := filterMap_none_of_map sectionLink Section.logo (fun t => rfl)
  have h3 := filterMap_none_of_map sectionLink Section.body (fun t => rfl)
  have h4 := filterMap_none_of_map sectionLink Section.generalText (fun t => rfl)
  have h5 := filterMap_map_id sectionLink Section.link (fun b => rfl) p.links
  have h6 := filterMap_none_of_map sectionLink Section.copyright (fun t => rfl)
  have h7 := filterMap_none_of_map sectionLink Section.version (fun t => rfl)
  have h8 := filterMap_map_none sectionLink
      (fun g => Section.additionalInfoGroup g.label g.content) (fun a => rfl) p.additionalInfo
  simp [renderedLinks, render, mount, composeSections, List.filterMap_append,
    h1, h2, h3, h4, h5, h6, h7, h8]

/-- The general-text blocks rendered from any props are exactly the
supplied generalText input. -/
theorem renderedGeneralText_mount (p : AboutModalProps) :
    renderedGeneralText (render (mount p)) = p.generalText.toList := by
  have h1 := filterMap_none_of_map sectionGeneralText Section.title (fun t => rfl)
  have h2 := filterMap_none_of_map sectionGeneralText Section.logo (fun t => rfl)
  have h3 := filterMap_none_of_map sectionGeneralText Section.body (fun t => rfl)
  have h4 := filterMap_opt_id sectionGeneralText Section.generalText (fun b => rfl) p.generalText
  have h5 := filterMap_map_none sectionGeneralText Section.link (fun a => rfl) p.links
  have h6 := filterMap_none_of_map sectionGeneralText Section.copyright (fun t => rfl)
  have h7 := filterMap_none_of_map sectionGeneralText Section.version (fun t => rfl)
  have h8 := filterMap_map_none sectionGeneralText
      (fun g => Section.additionalInfoGroup g.label g.content) (fun a => rfl) p.additionalInfo
  simp [renderedGeneralText, render, mount, composeSections, List.filterMap_append,
    h1, h2, h3, h4, h5, h6, h7, h8]

/-- C7: supplying generalText renders exactly that text and omitting it
renders no such section (the rendered blocks equal the optional input
as a list), and this is unchanged by any value of copyrightText. -/
theorem general_text_independent (p : AboutModalProps) :
    renderedGeneralText (render (mount p)) = p.generalText.toList ∧
    ∀ ct : Option String,
      renderedGeneralText (render (mount { p with copyrightText := ct }))
        = renderedGeneralText (render (mount p)) := by
  refine ⟨renderedGeneralText_mount p, fun ct => ?_⟩
  rw [renderedGeneralText_mount, renderedGeneralText_mount]

/-- C8: with a registered onClose callback whose return at the current
call is not a strict boolean, the close proceeds as for a true return:
the callback is invoked once and the dialog becomes hidden. -/
theorem nonboolean_return_closes (d : DialogInstance) (f : Nat → JSValue)
    (hreg : d.props.onClose = some f) (hnb : jsIsBool (f d.onCloseCalls) = false) :
    (attemptClose d).visible = false ∧
    (attemptClose d).onCloseCalls = d.onCloseCalls + 1 := by
  have hfalse : jsIsFalse (f d.onCloseCalls) = false := by
    cases hv : f d.onCloseCalls <;> simp_all [jsIsBool, jsIsFalse]
  simp [attemptClose, hreg, hfalse]

/-- Witness for C8 at concrete props whose callback returns undefined,
as the example caller of the repository does. -/
theorem nonboolean_return_closes_witness :
    (mount undefProps).props.onClose = some constUndefined ∧
    jsIsBool (constUndefined (mount undefProps).onCloseCalls) = false ∧
    ((attemptClose (mount undefProps)).visible = false ∧
      (attemptClose (mount undefProps)).onCloseCalls = (mount undefProps).onCloseCalls + 1) :=
  ⟨rfl, rfl, nonboolean_return_closes (mount undefProps) constUndefined rfl rfl⟩

/-- C9: in every state, an assistive-technology button query on the
rendered root succeeds exactly when the queried accessible name equals
the supplied closeIconDescription: the label is the route to the close
control, and the only one. -/
theorem close_control_accessible_name (d : DialogInstance) (name : String) :
    queryButtonByName (render d) name = true ↔ name = d.props.closeIconDescription := by
  simp only [queryButtonByName, render]
  rw [beq_iff_eq]
  exact eq_comm

/-- Processing events that are not close clicks never changes the
onClose call count. -/
theorem stepMany_calls_const (d : DialogInstance) (es : List Event)
    (h : ∀ e ∈ es, e ≠ Event.clickClose) :
    (stepMany d es).onCloseCalls = d.onCloseCalls := by
  induction es generalizing d with
  | nil => rfl
  | cons e t ih =>
      cases e with
      | setOpen b =>
          have := ih (step d (Event.setOpen b)) (fun e he => h e (List.mem_cons_of_mem _ he))
          simpa [stepMany, step] using this
      | clickClose => exact absurd rfl (h _ (List.mem_cons_self _ _))

/-- C10: mounting and rendering never invoke the registered onClose
callback: after mounting and any sequence of open updates containing no
close click, the call count is still zero, regardless of open. -/
theorem mount_never_calls_onClose (p : AboutModalProps) (es : List Event)
    (h : ∀ e ∈ es, e ≠ Event.clickClose) :
    (stepMany (mount p) es).onCloseCalls = 0 := by
  rw [stepMany_calls_const (mount p) es h]
  rfl

/-- Witness for C10 at concrete props with a registered callback and a
sequence of open toggles. -/
theorem mount_never_calls_onClose_witness :
    (stepMany (mount vetoProps) [Event.setOpen false, Event.setOpen true]).onCloseCalls = 0 :=
  mount_never_calls_onClose vetoProps [Event.setOpen false, Event.setOpen true] (by decide)

end AboutModal
